import Mathlib

/-!
Shallow embedding of the `ApiService` class (frontend API layer with
automatic token refresh) and proofs about its token-store, refresh and
request-retry behaviour.

JavaScript string-or-null values are modelled as `Option String`, with
`none` standing for `null`/`undefined` (the two are merged except where the
source distinguishes them, which after parameter defaulting it never does)
and JavaScript truthiness of such a value being "present and non-empty".
`localStorage` is modelled as a record of the two keys the service uses.
-/

namespace ApiService

/-- JavaScript truthiness of a string-or-null value: `null`/`undefined` and
the empty string are falsy, every other string is truthy. -/
def truthy : Option String → Bool
  | none => false
  | some s => s ≠ ""

/-- The two `localStorage` keys the service reads and writes. -/
structure Storage where
  access_token : Option String
  refresh_token : Option String
deriving Repr, DecidableEq

/-- Instance state of `ApiService`: `this.token`, `this.refreshToken`,
the persistent storage, and `this.refreshPromise` (modelled as the id of
the pending promise, `none` when no refresh is pending). -/
structure ApiState where
  token : Option String
  refreshToken : Option String
  storage : Storage
  refreshPromise : Option Nat
deriving Repr, DecidableEq

/-- `const API_BASE_URL = 'http://localhost:8000/api'`. -/
def API_BASE_URL : String := "http://localhost:8000/api"

/-- `setToken(accessToken, refreshToken = null)`: sets `this.token`
unconditionally; sets `this.refreshToken` only when the argument is truthy;
persists or removes `access_token` by truthiness of the access argument;
persists `refresh_token` when the refresh argument is truthy, and removes it
when the argument is `null` (which, by the parameter default, is also what an
omitted argument becomes). -/
def setToken (s : ApiState) (accessToken refreshTok : Option String) : ApiState :=
  let s := { s with token := accessToken }
  let s := if truthy refreshTok then { s with refreshToken := refreshTok } else s
  let s :=
    if truthy accessToken then
      { s with storage := { s.storage with access_token := accessToken } }
    else
      { s with storage := { s.storage with access_token := none } }
  if truthy refreshTok then
    { s with storage := { s.storage with refresh_token := refreshTok } }
  else if refreshTok = none then
    { s with storage := { s.storage with refresh_token := none } }
  else
    s

/-- `clearTokens()`: nulls both instance fields and removes both storage keys. -/
def clearTokens (s : ApiState) : ApiState :=
  { s with token := none, refreshToken := none,
           storage := { access_token := none, refresh_token := none } }

/-- The header object built by `getAuthHeaders()`. -/
structure Headers where
  contentType : String
  authorization : Option String
deriving Repr, DecidableEq

/-- `getAuthHeaders()`: always sets `Content-Type: application/json`, and adds
`Authorization: Bearer <token>` exactly when `this.token` is truthy. -/
def getAuthHeaders (s : ApiState) : Headers :=
  { contentType := "application/json"
    authorization :=
      match s.token with
      | some t => if t ≠ "" then some ("Bearer " ++ t) else none
      | none => none }

/-! URL construction: query parameters, `URLSearchParams` serialisation. -/

/-- Upper-case hexadecimal digit for a value below 16. -/
def hexDigit (n : Nat) : Char :=
  if n < 10 then Char.ofNat (48 + n) else Char.ofNat (55 + n)

/-- application/x-www-form-urlencoded serialisation of one UTF-8 byte, as
`URLSearchParams` performs it: ASCII alphanumerics and `*-._` stay literal,
space becomes `+`, every other byte becomes a percent-escape. -/
def formEncodeByte (b : UInt8) : String :=
  let n := b.toNat
  if (48 ≤ n ∧ n ≤ 57) ∨ (65 ≤ n ∧ n ≤ 90) ∨ (97 ≤ n ∧ n ≤ 122)
      ∨ n = 42 ∨ n = 45 ∨ n = 46 ∨ n = 95 then
    String.singleton (Char.ofNat n)
  else if n = 32 then "+"
  else "%" ++ String.singleton (hexDigit (n / 16)) ++ String.singleton (hexDigit (n % 16))

/-- Form-urlencoding of a string, byte by byte over its UTF-8 encoding. -/
def formEncode (s : String) : String :=
  String.join ((s.data.flatMap String.utf8EncodeChar).map formEncodeByte)

/-- `URLSearchParams.toString()` over the list of appended key/value pairs:
`k=v` pairs joined by `&`, both halves form-urlencoded. -/
def searchParamsToString : List (String × String) → String
  | [] => ""
  | [kv] => formEncode kv.1 ++ "=" ++ formEncode kv.2
  | kv :: rest => formEncode kv.1 ++ "=" ++ formEncode kv.2 ++ "&" ++ searchParamsToString rest

/-- The `forEach` loop over `Object.entries(options.params)`: a pair is
appended exactly when its value is neither `null` nor `undefined`. -/
def appendPairs (params : List (String × Option String)) : List (String × String) :=
  params.filterMap fun kv => kv.2.map fun v => (kv.1, v)

/-- URL construction of `request`: base URL plus endpoint; when a params
object is supplied, the serialised query string is appended after `?`, but
only when that string is non-empty. -/
def buildUrl (baseURL endpoint : String) (params : Option (List (String × Option String))) :
    String :=
  let url := baseURL ++ endpoint
  match params with
  | none => url
  | some ps =>
      let queryString := searchParamsToString (appendPairs ps)
      if queryString ≠ "" then url ++ "?" ++ queryString else url

/-! Refresh coordinator: `refreshAccessToken` with its single-flight promise. -/

/-- A parsed JSON body. JavaScript objects are open; the model carries the
fields the service ever reads: `detail` and `conflicts` from error payloads,
`access_token` and `refresh_token` from auth payloads. An absent field is
`none` (respectively `[]` for the array). -/
structure JsonBody where
  detail : Option String
  conflicts : List String
  access_token : Option String
  refresh_token : Option String
deriving Repr, DecidableEq

/-- The empty object `{}` produced by `.catch(() => ({}))`. -/
def emptyBody : JsonBody :=
  { detail := none, conflicts := [], access_token := none, refresh_token := none }

/-- Outcome of the network round trip of the refresh fetch: an ok response
with its parsed data, or a non-ok response (`throw new Error('Token refresh
failed')`). -/
inductive RefreshNet where
  | ok (data : JsonBody)
  | httpFail
deriving Repr, DecidableEq

/-- Failures `refreshAccessToken` can raise: no refresh token stored, or the
refresh exchange was rejected. -/
inductive RefreshErr where
  | noRefreshToken
  | refreshFailed
deriving Repr, DecidableEq

/-- What the synchronous prefix of one `refreshAccessToken()` call does:
throw `No refresh token available`, return the already-pending promise, or
store a fresh promise (issuing the one network call). -/
inductive StartResult where
  | threw
  | joined (pid : Nat)
  | created (pid : Nat)
deriving Repr, DecidableEq

/-- Synchronous prefix of `refreshAccessToken()`: the guard
`if (!this.refreshToken) throw`, the single-flight check
`if (this.refreshPromise) return this.refreshPromise`, and otherwise the
assignment `this.refreshPromise = fetch(...)` with `fresh` as the new
promise's id. -/
def refreshStart (s : ApiState) (fresh : Nat) : ApiState × StartResult :=
  if ¬ truthy s.refreshToken then (s, .threw)
  else
    match s.refreshPromise with
    | some pid => (s, .joined pid)
    | none => ({ s with refreshPromise := some fresh }, .created fresh)

/-- Refresh network calls issued by one start: only a created promise fetches. -/
def startNetCalls : StartResult → Nat
  | .created _ => 1
  | _ => 0

/-- Resolution of the pending refresh promise: the `.then` handler stores the
new pair via `setToken` on an ok response or throws `Token refresh failed`
otherwise, and the `.finally` handler nulls `this.refreshPromise` in both
cases. -/
def refreshSettle (s : ApiState) (net : RefreshNet) : ApiState × Except RefreshErr JsonBody :=
  match net with
  | .ok data =>
      let s := setToken s data.access_token data.refresh_token
      ({ s with refreshPromise := none }, .ok data)
  | .httpFail => ({ s with refreshPromise := none }, .error .refreshFailed)

/-- One full awaited `refreshAccessToken()` call as a single request's flow
sees it: start, then (unless the guard threw) await the settlement of the
promise. The third component counts refresh network calls issued by this
call (a joined caller issues none). -/
def refreshRun (s : ApiState) (fresh : Nat) (net : RefreshNet) :
    ApiState × Except RefreshErr JsonBody × Nat :=
  match refreshStart s fresh with
  | (s₁, .threw) => (s₁, .error .noRefreshToken, 0)
  | (s₁, .joined _) =>
      let (s₂, r) := refreshSettle s₁ net
      (s₂, r, 0)
  | (s₁, .created _) =>
      let (s₂, r) := refreshSettle s₁ net
      (s₂, r, 1)

/-- N callers invoking `refreshAccessToken()` back to back before the pending
promise settles (the synchronous prefixes are serialised by the event loop;
`fresh` numbers the promise each would create). Returns the final state and
each caller's start result in order. -/
def runStarts : ApiState → Nat → Nat → ApiState × List StartResult
  | s, _, 0 => (s, [])
  | s, fresh, n + 1 =>
      let (s₁, r) := refreshStart s fresh
      let (s₂, rs) := runStarts s₁ (fresh + 1) n
      (s₂, r :: rs)

/-! Request executor: `request` / `makeRequest` with retry-once on 401. -/

/-- The options object callers pass to `request`: an optional method, body
and query-parameter map (no caller supplies custom headers). -/
structure RequestOptions where
  method : Option String
  body : Option String
  params : Option (List (String × Option String))
deriving Repr, DecidableEq

/-- The config object handed to `fetch`: headers plus the fields spread from
options, with `params` deleted afterwards. -/
structure RequestConfig where
  headers : Headers
  method : Option String
  body : Option String
  params : Option (List (String × Option String))
deriving Repr, DecidableEq

/-- `const config = { headers: this.getAuthHeaders(), ...options }` followed
by `delete config.params`: a fresh object is built from the current auth
headers and the caller's fields, and the delete is applied to that fresh
object. -/
def buildConfig (s : ApiState) (options : RequestOptions) : RequestConfig :=
  let config : RequestConfig :=
    { headers := getAuthHeaders s
      method := options.method
      body := options.body
      params := options.params }
  { config with params := none }

/-- The prologue of `request`: computes the url (merging params), builds the
config, and leaves the caller's options object as the code leaves it — it is
only ever read (spread and `options.params`), the `delete` targets the fresh
config object. Returns (url, options as seen by the caller afterwards,
config). -/
def requestPrep (s : ApiState) (endpoint : String) (options : RequestOptions) :
    String × RequestOptions × RequestConfig :=
  let url := buildUrl API_BASE_URL endpoint options.params
  (url, options, buildConfig s options)

/-- One fetch response: its status and the result of `response.json()`
(`none` when parsing rejects). -/
structure HttpResponse where
  status : Nat
  json : Option JsonBody
deriving Repr, DecidableEq

/-- `response.ok`: status in the inclusive range 200–299. -/
def respOk (status : Nat) : Bool :=
  decide (200 ≤ status ∧ status ≤ 299)

/-- A thrown error object: its message plus the `status` and `data` fields
`makeRequest` attaches to errors built from failure responses. -/
structure JsError where
  message : String
  status : Option Nat
  data : Option JsonBody
deriving Repr, DecidableEq

/-- The generic message for a failure response without a usable detail. -/
def httpErrorMsg (status : Nat) : String :=
  "HTTP error! status: " ++ toString status

/-- The error built from a non-ok response that is not recovered from:
`errorData` is the parsed body (or `{}` when parsing fails), the message is
`errorData.detail` when truthy else the generic message, and the status and
full parsed payload are attached to the error object. -/
def handleFailure (resp : HttpResponse) : JsError :=
  let errorData := resp.json.getD emptyBody
  { message :=
      match errorData.detail with
      | some d => if d ≠ "" then d else httpErrorMsg resp.status
      | none => httpErrorMsg resp.status
    status := some resp.status
    data := some errorData }

/-- `throw new Error('Session expired. Please log in again.')`. -/
def sessionExpiredErr : JsError :=
  { message := "Session expired. Please log in again.", status := none, data := none }

/-- A rejected `response.json()` on a success response propagates as a parse
error (its message is supplied by the JavaScript engine; none of the proofs
depend on it). -/
def jsonParseError : JsError :=
  { message := "JSON parse error", status := none, data := none }

/-- Result of one `request` call: the parsed success body or a thrown error. -/
inductive ReqResult where
  | success (body : JsonBody)
  | failure (e : JsError)
deriving Repr, DecidableEq

/-- Observable side effects of one `request` call: every dispatched fetch
(url and config, in order), the number of refresh network calls issued, and
whether the browser was redirected to `/auth`. -/
structure ExecStats where
  sent : List (String × RequestConfig)
  refreshCalls : Nat
  redirected : Bool
deriving Repr, DecidableEq

/-- The network environment of one `request` call: the response to the first
fetch, the outcome of the refresh exchange (consulted only if a refresh is
attempted), the response to the retried fetch (consulted only if a retry
happens), and the id a newly created refresh promise would get. -/
structure NetEnv where
  resp1 : HttpResponse
  refreshNet : RefreshNet
  resp2 : HttpResponse
  fresh : Nat
deriving Repr, DecidableEq

/-- `makeRequest(retryCount)`: builds the config from the current token,
dispatches the fetch, and on a 401 with `retryCount === 0` and a truthy
stored refresh token awaits `refreshAccessToken()` and retries once with
`makeRequest(1)`; if that refresh throws, tokens are cleared, the browser is
redirected, and `Session expired` is thrown. Any other non-ok response
throws the error built by `handleFailure`; an ok response resolves with its
parsed body. -/
def makeRequest (s : ApiState) (url : String) (options : RequestOptions)
    (env : NetEnv) (retryCount : Nat) : ApiState × ReqResult × ExecStats :=
  let config := buildConfig s options
  let resp := if retryCount = 0 then env.resp1 else env.resp2
  if h : resp.status = 401 ∧ retryCount = 0 ∧ truthy s.refreshToken then
    match refreshRun s env.fresh env.refreshNet with
    | (s₁, .ok _, rc) =>
        let (s₂, res, st) := makeRequest s₁ url options env 1
        (s₂, res,
          { sent := (url, config) :: st.sent
            refreshCalls := rc + st.refreshCalls
            redirected := st.redirected })
    | (s₁, .error _, rc) =>
        (clearTokens s₁, .failure sessionExpiredErr,
          { sent := [(url, config)], refreshCalls := rc, redirected := true })
  else if respOk resp.status then
    match resp.json with
    | some body =>
        (s, .success body, { sent := [(url, config)], refreshCalls := 0, redirected := false })
    | none =>
        (s, .failure jsonParseError,
          { sent := [(url, config)], refreshCalls := 0, redirected := false })
  else
    (s, .failure (handleFailure resp),
      { sent := [(url, config)], refreshCalls := 0, redirected := false })
termination_by 1 - retryCount
decreasing_by
  simp only [h.2.1]
  omega

/-- `request(endpoint, options)`: url and config preparation followed by
`makeRequest()` with retry count 0. -/
def request (s : ApiState) (endpoint : String) (options : RequestOptions)
    (env : NetEnv) : ApiState × ReqResult × ExecStats :=
  let (url, _, _) := requestPrep s endpoint options
  makeRequest s url options env 0

/-! Concrete fixtures used to instantiate the claim theorems. -/

/-- A state with a full token pair stored in memory and storage, no pending
refresh. -/
def stA : ApiState :=
  { token := some "a0", refreshToken := some "r0"
    storage := { access_token := some "a0", refresh_token := some "r0" }
    refreshPromise := none }

/-- A state with an access token but no refresh token stored. -/
def stN : ApiState :=
  { token := some "a0", refreshToken := none
    storage := { access_token := some "a0", refresh_token := none }
    refreshPromise := none }

/-- A plain GET options object. -/
def exOpts : RequestOptions := { method := some "GET", body := none, params := none }

/-- The token pair a successful refresh exchange returns. -/
def exData : JsonBody :=
  { detail := none, conflicts := [], access_token := some "a1", refresh_token := some "r1" }

/-- Environment: first fetch answers 401, refresh succeeds with `exData`,
the retried fetch answers 200. -/
def env401ok : NetEnv :=
  { resp1 := { status := 401, json := some emptyBody }
    refreshNet := .ok exData
    resp2 := { status := 200, json := some emptyBody }
    fresh := 7 }

/-- Environment like `env401ok` but the retried fetch answers 401 again. -/
def env401retry401 : NetEnv :=
  { env401ok with resp2 := { status := 401, json := some emptyBody } }

/-- Environment: first fetch answers 409 with a structured conflict body. -/
def env409 : NetEnv :=
  { resp1 := { status := 409
               json := some { detail := some "conflict", conflicts := ["id1", "id2"]
                              access_token := none, refresh_token := none } }
    refreshNet := .httpFail
    resp2 := { status := 200, json := some emptyBody }
    fresh := 0 }

/-! Helper lemmas about the embedded operations. -/

theorem setToken_token (s : ApiState) (a r : Option String) :
    (setToken s a r).token = a := by
  simp only [setToken]
  split_ifs <;> rfl

theorem setToken_refreshPromise (s : ApiState) (a r : Option String) :
    (setToken s a r).refreshPromise = s.refreshPromise := by
  simp only [setToken]
  split_ifs <;> rfl

theorem setToken_none_refreshToken (s : ApiState) (a : Option String) :
    (setToken s a none).refreshToken = s.refreshToken := by
  simp only [setToken]
  split_ifs <;> simp_all [truthy]

theorem setToken_none_storage_refresh (s : ApiState) (a : Option String) :
    (setToken s a none).storage.refresh_token = none := by
  simp only [setToken]
  split_ifs <;> simp_all [truthy]

theorem setToken_some_refreshToken (s : ApiState) (a : Option String) (r : String)
    (hr : r ≠ "") : (setToken s a (some r)).refreshToken = some r := by
  simp only [setToken, truthy, hr]
  split_ifs with h1 h2 <;> simp_all

theorem setToken_some_storage_refresh (s : ApiState) (a : Option String) (r : String)
    (hr : r ≠ "") : (setToken s a (some r)).storage.refresh_token = some r := by
  simp only [setToken, truthy, hr]
  split_ifs with h1 h2 <;> simp_all

theorem setToken_promise_comm (s : ApiState) (p : Option Nat) (a r : Option String) :
    setToken { s with refreshPromise := p } a r = { setToken s a r with refreshPromise := p } := by
  simp only [setToken]
  split_ifs <;> rfl

theorem setToken_httpFail_frame (s : ApiState) :
    (refreshSettle s .httpFail).1.token = s.token ∧
    (refreshSettle s .httpFail).1.refreshToken = s.refreshToken ∧
    (refreshSettle s .httpFail).1.storage = s.storage := by
  simp [refreshSettle]

theorem refreshStart_pending (s : ApiState) (fresh pid : Nat)
    (hp : s.refreshPromise = some pid) (ht : truthy s.refreshToken = true) :
    refreshStart s fresh = (s, .joined pid) := by
  simp [refreshStart, hp, ht]

theorem refreshStart_fresh (s : ApiState) (fresh : Nat)
    (hp : s.refreshPromise = none) (ht : truthy s.refreshToken = true) :
    refreshStart s fresh = ({ s with refreshPromise := some fresh }, .created fresh) := by
  simp [refreshStart, hp, ht]

theorem runStarts_pending (n : Nat) (s : ApiState) (fresh pid : Nat)
    (hp : s.refreshPromise = some pid) (ht : truthy s.refreshToken = true) :
    runStarts s fresh n = (s, List.replicate n (.joined pid)) := by
  induction n generalizing fresh with
  | zero => simp [runStarts]
  | succ n ih => simp [runStarts, refreshStart_pending s fresh pid hp ht, ih, List.replicate_succ]

theorem makeRequest_retry (s : ApiState) (url : String) (options : RequestOptions)
    (env : NetEnv) :
    makeRequest s url options env 1 =
      if respOk env.resp2.status then
        match env.resp2.json with
        | some body =>
            (s, .success body,
              { sent := [(url, buildConfig s options)], refreshCalls := 0, redirected := false })
        | none =>
            (s, .failure jsonParseError,
              { sent := [(url, buildConfig s options)], refreshCalls := 0, redirected := false })
      else
        (s, .failure (handleFailure env.resp2),
          { sent := [(url, buildConfig s options)], refreshCalls := 0, redirected := false }) := by
  rw [makeRequest]
  simp

theorem makeRequest_zero_no401 (s : ApiState) (url : String) (options : RequestOptions)
    (env : NetEnv)
    (h : ¬(env.resp1.status = 401 ∧ truthy s.refreshToken = true))
    (hnok : respOk env.resp1.status = false) :
    makeRequest s url options env 0 =
      (s, .failure (handleFailure env.resp1),
        { sent := [(url, buildConfig s options)], refreshCalls := 0, redirected := false }) := by
  rw [makeRequest]
  simp only [reduceIte, true_and]
  rw [dif_neg h, if_neg (by simp [hnok])]

theorem makeRequest_zero_refresh_fail (s : ApiState) (url : String)
    (options : RequestOptions) (env : NetEnv)
    (h401 : env.resp1.status = 401) (ht : truthy s.refreshToken = true)
    (hp : s.refreshPromise = none) (hf : env.refreshNet = .httpFail) :
    makeRequest s url options env 0 =
      (clearTokens { s with refreshPromise := none }, .failure sessionExpiredErr,
        { sent := [(url, buildConfig s options)], refreshCalls := 1, redirected := true }) := by
  rw [makeRequest]
  simp [h401, ht, hf, refreshRun, refreshStart_fresh _ _ hp ht, refreshSettle]

theorem makeRequest_zero_refresh_ok (s : ApiState) (url : String)
    (options : RequestOptions) (env : NetEnv) (data : JsonBody)
    (h401 : env.resp1.status = 401) (ht : truthy s.refreshToken = true)
    (hp : s.refreshPromise = none) (hok : env.refreshNet = .ok data) :
    makeRequest s url options env 0 =
      (let s₁ := { setToken s data.access_token data.refresh_token with refreshPromise := none }
       let r := makeRequest s₁ url options env 1
       (r.1, r.2.1,
         { sent := (url, buildConfig s options) :: r.2.2.sent
           refreshCalls := 1 + r.2.2.refreshCalls
           redirected := r.2.2.redirected })) := by
  rw [makeRequest]
  simp [h401, ht, hok, refreshRun, refreshStart_fresh _ _ hp ht, refreshSettle,
    setToken_promise_comm]

theorem refreshRun_calls_le (s : ApiState) (fresh : Nat) (net : RefreshNet) :
    (refreshRun s fresh net).2.2 ≤ 1 := by
  unfold refreshRun
  rcases h : refreshStart s fresh with ⟨s₁, r⟩
  cases r <;> cases net <;> simp [refreshSettle]

theorem makeRequest_retry_stats (s : ApiState) (url : String) (options : RequestOptions)
    (env : NetEnv) :
    (makeRequest s url options env 1).2.2.refreshCalls = 0 ∧
    (makeRequest s url options env 1).2.2.sent = [(url, buildConfig s options)] := by
  rw [makeRequest_retry]
  split_ifs with h
  · cases env.resp2.json <;> simp
  · simp

theorem makeRequest_zero_stats (s : ApiState) (url : String) (options : RequestOptions)
    (env : NetEnv) :
    (makeRequest s url options env 0).2.2.refreshCalls ≤ 1 ∧
    (makeRequest s url options env 0).2.2.sent.length ≤ 2 := by
  rw [makeRequest]
  simp only [reduceIte, true_and]
  by_cases h : env.resp1.status = 401 ∧ truthy s.refreshToken = true
  · rw [dif_pos h]
    rcases hr : refreshRun s env.fresh env.refreshNet with ⟨s₁, r, rc⟩
    have hrc : rc ≤ 1 := by
      have h2 := refreshRun_calls_le s env.fresh env.refreshNet
      rw [hr] at h2
      exact h2
    cases r with
    | ok d =>
        rcases hmk : makeRequest s₁ url options env 1 with ⟨s₂, res, st⟩
        have hst := makeRequest_retry_stats s₁ url options env
        rw [hmk] at hst
        simp only at hst
        simp [hr, hmk, hst.1, hst.2]
        omega
    | error e =>
        simp [hr]
        omega
  · rw [dif_neg h]
    split_ifs with hok
    · cases hj : env.resp1.json <;> simp [hj]
    · simp

theorem searchParamsToString_ne_empty (kv : String × String) (rest : List (String × String)) :
    searchParamsToString (kv :: rest) ≠ "" := by
  intro h
  have hlen : (searchParamsToString (kv :: rest)).length = 0 := by rw [h]; rfl
  cases rest with
  | nil =>
      simp only [searchParamsToString, String.length_append] at hlen
      have : ("=" : String).length = 1 := rfl
      omega
  | cons kv2 rest2 =>
      simp only [searchParamsToString, String.length_append] at hlen
      have : ("=" : String).length = 1 := rfl
      omega

/-! Claim theorems. -/

/-- C3 (counterexample): from a state whose storage holds refresh token
`r0`, calling `setToken` with only an access token (refresh omitted, hence
`null`) removes the refresh token from persistent storage even though the
in-memory copy is kept, so the previously stored refresh token is not left
unchanged in both places as the claim requires. -/
theorem C3_counterexample :
    stA.storage.refresh_token = some "r0" ∧
    (setToken stA (some "a1") none).storage.refresh_token = none ∧
    (setToken stA (some "a1") none).refreshToken = some "r0" := by
  decide

/-- C3 (amended): calling `setToken` with the refresh argument omitted (it
defaults to `null`) leaves the in-memory refresh token unchanged but removes
the refresh token from persistent storage, while always installing the given
access token; calling it with a non-empty refresh token overwrites the
refresh token in memory and storage. -/
theorem C3_amended (s : ApiState) (a : Option String) :
    (setToken s a none).token = a ∧
    (setToken s a none).refreshToken = s.refreshToken ∧
    (setToken s a none).storage.refresh_token = none ∧
    ∀ r : String, r ≠ "" →
      (setToken s a (some r)).token = a ∧
      (setToken s a (some r)).refreshToken = some r ∧
      (setToken s a (some r)).storage.refresh_token = some r := by
  exact ⟨setToken_token s a none, setToken_none_refreshToken s a,
    setToken_none_storage_refresh s a,
    fun r hr => ⟨setToken_token s a (some r), setToken_some_refreshToken s a r hr,
      setToken_some_storage_refresh s a r hr⟩⟩

/-- C3 (witness): the amended behaviour at a concrete state and tokens. -/
theorem C3_witness :
    (setToken stA (some "a1") none).refreshToken = stA.refreshToken ∧
    (setToken stA (some "a1") (some "r1")).refreshToken = some "r1" ∧
    (setToken stA (some "a1") (some "r1")).storage.refresh_token = some "r1" := by
  have h := C3_amended stA (some "a1")
  exact ⟨h.2.1, (h.2.2.2 "r1" (by decide)).2.1, (h.2.2.2 "r1" (by decide)).2.2⟩

/-- C5: `refreshAccessToken` fails with `NoRefreshToken` whenever the stored
refresh token is not truthy, leaving the whole state unchanged and issuing
no network call; and when a started refresh fails on the network, the token
store (both in-memory tokens and storage) is unchanged, the pending-refresh
handle is discarded, the error is `refreshFailed`, and exactly the one
network call was issued. -/
theorem C5_failure_no_mutation (s : ApiState) (fresh : Nat) :
    (truthy s.refreshToken = false →
      ∀ net : RefreshNet, refreshRun s fresh net = (s, .error .noRefreshToken, 0)) ∧
    (truthy s.refreshToken = true → s.refreshPromise = none →
      (refreshRun s fresh .httpFail).1.token = s.token ∧
      (refreshRun s fresh .httpFail).1.refreshToken = s.refreshToken ∧
      (refreshRun s fresh .httpFail).1.storage = s.storage ∧
      (refreshRun s fresh .httpFail).1.refreshPromise = none ∧
      (refreshRun s fresh .httpFail).2.1 = .error .refreshFailed ∧
      (refreshRun s fresh .httpFail).2.2 = 1) := by
  constructor
  · intro hf net
    simp [refreshRun, refreshStart, hf]
  · intro ht hp
    simp [refreshRun, refreshStart_fresh s fresh hp ht, refreshSettle]

/-- C5 (witness): the two failure modes at concrete states. -/
theorem C5_witness :
    refreshRun stN 7 .httpFail = (stN, .error .noRefreshToken, 0) ∧
    (refreshRun stA 7 .httpFail).1.refreshToken = stA.refreshToken ∧
    (refreshRun stA 7 .httpFail).1.refreshPromise = none := by
  have h1 := (C5_failure_no_mutation stN 7).1 (by decide) .httpFail
  have h2 := (C5_failure_no_mutation stA 7).2 (by decide) (by decide)
  exact ⟨h1, h2.2.1, h2.2.2.2.1⟩

/-- C8: the built headers always carry the JSON content type (and the config
handed to fetch uses exactly these headers), and the Authorization header is
present if and only if the stored access token is truthy, in which case it
is `Bearer` followed by the token; with no token stored there is no
Authorization header. -/
theorem C8_auth_headers (s : ApiState) (options : RequestOptions) :
    (getAuthHeaders s).contentType = "application/json" ∧
    (buildConfig s options).headers = getAuthHeaders s ∧
    (getAuthHeaders s).authorization.isSome = truthy s.token ∧
    (∀ t : String, s.token = some t → t ≠ "" →
      (getAuthHeaders s).authorization = some ("Bearer " ++ t)) ∧
    (s.token = none → (getAuthHeaders s).authorization = none) := by
  refine ⟨rfl, rfl, ?_, ?_, ?_⟩
  · cases h : s.token with
    | none => simp [getAuthHeaders, truthy, h]
    | some t =>
        by_cases ht : t = "" <;> simp [getAuthHeaders, truthy, h, ht]
  · intro t ht hne
    simp [getAuthHeaders, ht, hne]
  · intro h
    simp [getAuthHeaders, h]

/-- C8 (witness): authenticated state carries the Bearer header, cleared
state carries none. -/
theorem C8_witness :
    (getAuthHeaders stA).authorization = some "Bearer a0" ∧
    (getAuthHeaders (clearTokens stA)).authorization = none := by
  have h1 := (C8_auth_headers stA exOpts).2.2.2.1 "a0" (by decide) (by decide)
  have h2 := (C8_auth_headers (clearTokens stA) exOpts).2.2.2.2 (by decide)
  exact ⟨h1.trans (by decide), h2⟩

/-- C9: `request` merges the query-parameter map into the URL, and the
caller's options object is left unmutated — in particular its `params` field
is still present and unchanged — because the `delete` is applied to the
freshly built config object (whose `params` field is indeed removed). -/
theorem C9_options_unmutated (s : ApiState) (endpoint : String) (options : RequestOptions) :
    (requestPrep s endpoint options).2.1 = options ∧
    (requestPrep s endpoint options).2.1.params = options.params ∧
    (requestPrep s endpoint options).1 = buildUrl API_BASE_URL endpoint options.params ∧
    (requestPrep s endpoint options).2.2.params = none := by
  exact ⟨rfl, rfl, rfl, rfl⟩

/-- C10: for a params map, `null`/`undefined`-valued entries are omitted
from the appended pairs while every other entry is appended in order; when
every entry is omitted the URL carries no `?` at all, and otherwise the
serialised query string is appended after `?`. -/
theorem C10_null_params_omitted (base ep : String) (ps : List (String × Option String))
    (k v : String) :
    appendPairs ((k, none) :: ps) = appendPairs ps ∧
    appendPairs ((k, some v) :: ps) = (k, v) :: appendPairs ps ∧
    ((∀ kv ∈ ps, kv.2 = none) → buildUrl base ep (some ps) = base ++ ep) ∧
    (appendPairs ps ≠ [] →
      buildUrl base ep (some ps) = base ++ ep ++ "?" ++ searchParamsToString (appendPairs ps)) := by
  refine ⟨by simp [appendPairs], by simp [appendPairs], ?_, ?_⟩
  · intro hall
    have hnil : appendPairs ps = [] := by
      rw [appendPairs, List.filterMap_eq_nil_iff]
      intro kv hkv
      rw [hall kv hkv]
      rfl
    simp [buildUrl, hnil, searchParamsToString]
  · intro hne
    cases happ : appendPairs ps with
    | nil => exact absurd happ hne
    | cons kv rest =>
        simp [buildUrl, happ, searchParamsToString_ne_empty kv rest]

/-- C10 (witness): a params map of only null values yields no `?`; a map
with one real and one null entry yields exactly that entry's query string. -/
theorem C10_witness :
    buildUrl "b" "/e" (some [("x", none)]) = "b/e" ∧
    buildUrl "b" "/e" (some [("k", some "v"), ("x", none)]) = "b/e?k=v" := by
  have h1 := (C10_null_params_omitted "b" "/e" [("x", none)] "k" "v").2.2.1 (by decide)
  have h2 := (C10_null_params_omitted "b" "/e" [("k", some "v"), ("x", none)] "k" "v").2.2.2
    (by decide)
  exact ⟨h1.trans (by decide), h2.trans (by decide)⟩

/-- C1 (counterexample): on a 401 with no refresh token stored, `request`
does not fail with `SessionExpired` and does not clear the tokens (the state
is unchanged, though no refresh call is made either); and a 401 on the
already-retried request is also not turned into `SessionExpired` — the
refreshed access token survives in the state. -/
theorem C1_counterexample :
    (makeRequest stN "u" exOpts env401ok 0).2.1 ≠ .failure sessionExpiredErr ∧
    (makeRequest stN "u" exOpts env401ok 0).1 = stN ∧
    (makeRequest stN "u" exOpts env401ok 0).2.2.refreshCalls = 0 ∧
    (makeRequest stA "u" exOpts env401retry401 0).2.1 ≠ .failure sessionExpiredErr ∧
    (makeRequest stA "u" exOpts env401retry401 0).1.token = some "a1" := by
  have h1 := makeRequest_zero_no401 stN "u" exOpts env401ok (by decide) (by decide)
  have h2 := makeRequest_zero_refresh_ok stA "u" exOpts env401retry401 exData
    (by decide) (by decide) (by decide) (by decide)
  simp only [makeRequest_retry] at h2
  rw [h1, h2]
  decide

/-- C1 (amended): on a 401 first response with a truthy refresh token and a
failing refresh attempt, both tokens are cleared, the browser is redirected,
and the call fails with `SessionExpired`; when no (truthy) refresh token is
stored the call instead fails with the generic 401 error, the state is
untouched, and no refresh network call is made; and a 401 on the retried
request after a successful refresh fails with the generic 401 error without
a second refresh, without a redirect, and without clearing the refreshed
tokens. -/
theorem C1_amended (s : ApiState) (url : String) (options : RequestOptions) (env : NetEnv) :
    (env.resp1.status = 401 → truthy s.refreshToken = true → s.refreshPromise = none →
      env.refreshNet = .httpFail →
      makeRequest s url options env 0 =
        (clearTokens { s with refreshPromise := none }, .failure sessionExpiredErr,
          { sent := [(url, buildConfig s options)], refreshCalls := 1, redirected := true })) ∧
    (env.resp1.status = 401 → truthy s.refreshToken = false →
      makeRequest s url options env 0 =
        (s, .failure (handleFailure env.resp1),
          { sent := [(url, buildConfig s options)], refreshCalls := 0, redirected := false })) ∧
    (∀ data : JsonBody, env.resp1.status = 401 → truthy s.refreshToken = true →
      s.refreshPromise = none → env.refreshNet = .ok data → env.resp2.status = 401 →
      (makeRequest s url options env 0).2.1 = .failure (handleFailure env.resp2) ∧
      (makeRequest s url options env 0).1 =
        { setToken s data.access_token data.refresh_token with refreshPromise := none } ∧
      (makeRequest s url options env 0).2.2.refreshCalls = 1 ∧
      (makeRequest s url options env 0).2.2.redirected = false) := by
  refine ⟨?_, ?_, ?_⟩
  · intro h401 ht hp hf
    exact makeRequest_zero_refresh_fail s url options env h401 ht hp hf
  · intro h401 ht
    refine makeRequest_zero_no401 s url options env ?_ ?_
    · rintro ⟨-, h⟩
      rw [ht] at h
      cases h
    · rw [h401]
      rfl
  · intro data h401 ht hp hok h401b
    have h := makeRequest_zero_refresh_ok s url options env data h401 ht hp hok
    simp only [makeRequest_retry] at h
    have hnok2 : respOk env.resp2.status = false := by rw [h401b]; rfl
    rw [h]
    simp [hnok2]

/-- C1 (witness): the amended behaviour at concrete states — refresh failure
terminates the session; absent refresh token gives the generic error with no
refresh call; a retried 401 keeps the refresh count at one. -/
theorem C1_witness :
    makeRequest stA "u" exOpts { env401ok with refreshNet := .httpFail } 0 =
      (clearTokens { stA with refreshPromise := none }, .failure sessionExpiredErr,
        { sent := [("u", buildConfig stA exOpts)], refreshCalls := 1, redirected := true }) ∧
    makeRequest stN "u" exOpts env401ok 0 =
      (stN, .failure (handleFailure env401ok.resp1),
        { sent := [("u", buildConfig stN exOpts)], refreshCalls := 0, redirected := false }) ∧
    (makeRequest stA "u" exOpts env401retry401 0).2.2.refreshCalls = 1 := by
  refine ⟨(C1_amended stA "u" exOpts { env401ok with refreshNet := .httpFail }).1
      (by decide) (by decide) (by decide) (by decide),
    (C1_amended stN "u" exOpts env401ok).2.1 (by decide) (by decide),
    ((C1_amended stA "u" exOpts env401retry401).2.2 exData (by decide) (by decide)
      (by decide) (by decide) (by decide)).2.2.1⟩

/-- C2: single-flight refresh — when N ≥ 1 callers invoke
`refreshAccessToken` back to back while no refresh is pending and a truthy
refresh token is stored, the first caller creates the pending promise
(issuing the one refresh network call) and every other caller receives that
same promise with no further network call, so the total refresh network
call count is exactly one; and when that single promise settles
successfully, the store's access token is the one from the produced pair,
which is what every waiting request reads when it resubmits. -/
theorem C2_single_flight (s : ApiState) (fresh n : Nat)
    (ht : truthy s.refreshToken = true) (hp : s.refreshPromise = none) (hn : 0 < n) :
    (runStarts s fresh n).2 =
      .created fresh :: List.replicate (n - 1) (.joined fresh) ∧
    ((runStarts s fresh n).2.map startNetCalls).sum = 1 ∧
    (runStarts s fresh n).1 = { s with refreshPromise := some fresh } ∧
    ∀ data : JsonBody,
      (refreshSettle (runStarts s fresh n).1 (.ok data)).2 = .ok data ∧
      (refreshSettle (runStarts s fresh n).1 (.ok data)).1.token = data.access_token := by
  obtain ⟨m, rfl⟩ : ∃ m, n = m + 1 := ⟨n - 1, (Nat.succ_pred_eq_of_pos hn).symm⟩
  have hpend := runStarts_pending m { s with refreshPromise := some fresh } (fresh + 1)
    fresh rfl ht
  have hstep : runStarts s fresh (m + 1) =
      ({ s with refreshPromise := some fresh },
        .created fresh :: List.replicate m (.joined fresh)) := by
    simp [runStarts, refreshStart_fresh s fresh hp ht, hpend]
  refine ⟨?_, ?_, ?_, ?_⟩
  · simp [hstep]
  · simp [hstep, startNetCalls, List.map_replicate, List.sum_replicate]
  · simp [hstep]
  · intro data
    exact ⟨by simp [hstep, refreshSettle],
      by simp [hstep, refreshSettle, setToken_token]⟩

/-- C2 (witness): three back-to-back callers share the one promise, one
network call total, and the settled store holds the produced access token. -/
theorem C2_witness :
    (runStarts stA 5 3).2 = [.created 5, .joined 5, .joined 5] ∧
    ((runStarts stA 5 3).2.map startNetCalls).sum = 1 ∧
    (refreshSettle (runStarts stA 5 3).1 (.ok exData)).1.token = some "a1" := by
  obtain ⟨h1, h2, h3, h4⟩ := C2_single_flight stA 5 3 (by decide) (by decide) (by decide)
  exact ⟨h1.trans (by decide), h2, (h4 exData).2.trans (by decide)⟩

/-- C4: a successful refresh settles only after the token store has been
updated — the resolved value is produced together with a state whose access
token is the new pair's access token — and in the 401-refresh-retry flow the
retried dispatch carries the Authorization header built from the new access
token, so no waiting request resubmits with the stale token. -/
theorem C4_store_updated_before_resolve (s : ApiState) (url : String)
    (options : RequestOptions) (env : NetEnv) (data : JsonBody) (a : String) :
    (∀ s₀ : ApiState,
      (refreshSettle s₀ (.ok data)).2 = .ok data ∧
      (refreshSettle s₀ (.ok data)).1.token = data.access_token) ∧
    (env.resp1.status = 401 → truthy s.refreshToken = true → s.refreshPromise = none →
      env.refreshNet = .ok data → data.access_token = some a → a ≠ "" →
      ((makeRequest s url options env 0).2.2.sent.map fun p => p.2.headers.authorization) =
        [(getAuthHeaders s).authorization, some ("Bearer " ++ a)]) := by
  constructor
  · intro s₀
    exact ⟨rfl, by simp [refreshSettle, setToken_token]⟩
  · intro h401 ht hp hok ha hane
    have h := makeRequest_zero_refresh_ok s url options env data h401 ht hp hok
    simp only [makeRequest_retry] at h
    rw [h]
    split_ifs with hok2
    · cases hj : env.resp2.json <;>
        simp [hj, buildConfig, getAuthHeaders, setToken_token, ha, hane]
    · simp [buildConfig, getAuthHeaders, setToken_token, ha, hane]

/-- C4 (witness): in the concrete refresh-retry run the first dispatch used
the stale token and the resubmission used the refreshed one. -/
theorem C4_witness :
    ((makeRequest stA "u" exOpts env401ok 0).2.2.sent.map
        fun p => p.2.headers.authorization) =
      [some "Bearer a0", some "Bearer a1"] := by
  have h := (C4_store_updated_before_resolve stA "u" exOpts env401ok exData "a1").2
    (by decide) (by decide) (by decide) (by decide) (by decide) (by decide)
  exact h.trans (by decide)

/-- C6: one `request` call issues at most one refresh network call and at
most two dispatches (the retry counter caps further retries); every config
built from the same options carries the caller's method, body, the JSON
content type, and no params; and in the refresh-retry flow exactly the two
dispatches happen, the retried one differing from the original only in the
state (hence only in the Authorization header) its config was built from. -/
theorem C6_retry_identical_capped (s : ApiState) (url : String)
    (options : RequestOptions) (env : NetEnv) :
    ((makeRequest s url options env 0).2.2.refreshCalls ≤ 1 ∧
     (makeRequest s url options env 0).2.2.sent.length ≤ 2) ∧
    (∀ s₀ : ApiState,
      (buildConfig s₀ options).method = options.method ∧
      (buildConfig s₀ options).body = options.body ∧
      (buildConfig s₀ options).params = none ∧
      (buildConfig s₀ options).headers.contentType = "application/json") ∧
    (∀ data : JsonBody, env.resp1.status = 401 → truthy s.refreshToken = true →
      s.refreshPromise = none → env.refreshNet = .ok data →
      (makeRequest s url options env 0).2.2.sent =
        [(url, buildConfig s options),
         (url, buildConfig
            { setToken s data.access_token data.refresh_token with refreshPromise := none }
            options)]) := by
  refine ⟨makeRequest_zero_stats s url options env, fun s₀ => ⟨rfl, rfl, rfl, rfl⟩, ?_⟩
  intro data h401 ht hp hok
  have h := makeRequest_zero_refresh_ok s url options env data h401 ht hp hok
  simp only [makeRequest_retry] at h
  rw [h]
  split_ifs with hok2
  · cases hj : env.resp2.json <;> simp [hj]
  · simp

/-- C6 (witness): the concrete refresh-retry run dispatches exactly twice,
with identical url, method, body and content type and only the
Authorization header updated. -/
theorem C6_witness :
    (makeRequest stA "u" exOpts env401ok 0).2.2.sent =
      [("u", { headers := { contentType := "application/json"
                            authorization := some "Bearer a0" }
               method := some "GET", body := none, params := none }),
       ("u", { headers := { contentType := "application/json"
                            authorization := some "Bearer a1" }
               method := some "GET", body := none, params := none })] := by
  have h := (C6_retry_identical_capped stA "u" exOpts env401ok).2.2 exData
    (by decide) (by decide) (by decide) (by decide)
  exact h.trans (by decide)

/-- C7: a non-ok, non-401 response makes `request` fail with the error built
from the response: it carries the response status, the full parsed error
payload (conflicts array included, as structured data), and a message taken
from the payload's truthy `detail` when present, else the generic
status-derived message. -/
theorem C7_api_error_payload (s : ApiState) (url : String) (options : RequestOptions)
    (env : NetEnv)
    (hnok : respOk env.resp1.status = false) (h401 : env.resp1.status ≠ 401) :
    (makeRequest s url options env 0).2.1 = .failure (handleFailure env.resp1) ∧
    (handleFailure env.resp1).status = some env.resp1.status ∧
    (handleFailure env.resp1).data = some (env.resp1.json.getD emptyBody) ∧
    ((handleFailure env.resp1).data.map JsonBody.conflicts =
      some (env.resp1.json.getD emptyBody).conflicts) ∧
    (∀ d : String, (env.resp1.json.getD emptyBody).detail = some d → d ≠ "" →
      (handleFailure env.resp1).message = d) ∧
    ((env.resp1.json.getD emptyBody).detail = none →
      (handleFailure env.resp1).message = httpErrorMsg env.resp1.status) := by
  have hno : ¬(env.resp1.status = 401 ∧ truthy s.refreshToken = true) := fun hh => h401 hh.1
  have h := makeRequest_zero_no401 s url options env hno hnok
  refine ⟨by rw [h], rfl, rfl, rfl, ?_, ?_⟩
  · intro d hd hdne
    simp [handleFailure, hd, hdne]
  · intro hd
    simp [handleFailure, hd]

/-- C7 (witness): a 409 with a structured conflict body yields the error
with status 409, message from `detail`, and the conflicts list preserved. -/
theorem C7_witness :
    (makeRequest stA "u" exOpts env409 0).2.1 =
      .failure { message := "conflict", status := some 409
                 data := some { detail := some "conflict", conflicts := ["id1", "id2"]
                                access_token := none, refresh_token := none } } := by
  have h := C7_api_error_payload stA "u" exOpts env409 (by decide) (by decide)
  exact h.1.trans (by decide)

end ApiService
